import Mathlib

set_option maxRecDepth 40000

/-!
Verification of the S3EV retrieval-augmented query pipeline (`src/app.py`).

The Python source is shallowly embedded below.  External collaborators
(the Qdrant index backend, the SentenceTransformer embedding model and the
Groq generative model) are represented by explicit parameters: the backend
response for the current query is a list of scored points, a fallible call
is an `Except`, and the generative model is a function from the prompt to
`Except String String`.  Python floats are modelled as rationals, Python
exceptions as `Except.error`, and the `HTTPException` messages raised by the
code are carried in the error strings.
-/

deriving instance DecidableEq for Except

namespace S3EV

/-! ### Python string primitives -/

/-- Python `str.lower()`, character by character. -/
def pyLower (s : String) : String :=
  String.mk (s.data.map Char.toLower)

/-- Python `str.capitalize()`: first character upper-cased, rest lower-cased. -/
def pyCapitalize (s : String) : String :=
  match s.data with
  | [] => ""
  | c :: rest => String.mk (c.toUpper :: rest.map Char.toLower)

/-- Test whether the character list given second starts with the list given
first. -/
def leadsWith : List Char → List Char → Bool
  | [], _ => true
  | _ :: _, [] => false
  | n :: ns, h :: hs => n == h && leadsWith ns hs

/-- Test whether `needle` occurs as a contiguous run inside the second
list: the semantics of Python's `needle in haystack` on strings. -/
def occursIn (needle : List Char) : List Char → Bool
  | [] => needle.isEmpty
  | h :: hs => leadsWith needle (h :: hs) || occursIn needle hs

/-- Python's `needle in s` membership test on strings. -/
def strOccursIn (needle s : String) : Bool :=
  occursIn needle.data s.data

/-- Worker for `pySplit`: `acc` holds the characters of the word currently
being read, in reverse order. -/
def pyWordsAux (acc : List Char) : List Char → List String
  | [] => if acc.isEmpty then [] else [String.mk acc.reverse]
  | c :: cs =>
    if c.isWhitespace then
      if acc.isEmpty then pyWordsAux [] cs
      else String.mk acc.reverse :: pyWordsAux [] cs
    else pyWordsAux (c :: acc) cs

/-- Python `str.split()` with no argument: split on whitespace runs,
dropping empty pieces. -/
def pySplit (s : String) : List String :=
  pyWordsAux [] s.data

/-- Python `str.strip()`: drop leading and trailing whitespace. -/
def pyStrip (s : String) : String :=
  String.mk (((s.data.dropWhile Char.isWhitespace).reverse.dropWhile
    Char.isWhitespace).reverse)

/-! ### Data model (`src/app.py` lines 20-48) -/

/-- Contact constant `SUPPORT_EMAIL` (line 21). -/
def SUPPORT_EMAIL : String := "info@s3ev.com"

/-- Contact constant `SUPPORT_PHONE` (line 22). -/
def SUPPORT_PHONE : String := "+91 63640 46550"

/-- The payload attached to one point stored in the index backend: the code
reads `payload.get('text', '')` and `payload.get('metadata', {})`, so both
fields are optional with those defaults. -/
structure Payload where
  text : Option String
  metadata : Option (List (String × String))
deriving DecidableEq

/-- One scored result coming back from the index backend's search call
(`result.score`, `result.payload` at lines 79-86). -/
structure ScoredPoint where
  score : Rat
  payload : Payload
deriving DecidableEq

/-- `DocumentResponse` dataclass (lines 41-45). -/
structure DocumentResponse where
  content : String
  confidence : Rat
  metadata : List (String × String)
deriving DecidableEq

/-! ### VectorDBService (`src/app.py` lines 50-91) -/

/-- Environment of `VectorDBService.__init__`: whether constructing the
`QdrantClient` raises, whether loading the `SentenceTransformer` raises, and
which collections exist in the backing index (the constructor receives
access to the index but, as the theorems below establish, never consults
this list). -/
structure InitEnv where
  clientInitFault : Option String
  modelInitFault : Option String
  collections : List String
deriving DecidableEq

/-- State of a constructed `VectorDBService` as `search` sees it:
`hasClient`/`hasModel` model the `not self.client or not self.model` guard;
`points` is the scored candidate set the backend would return for the
current query vector; `searchFault` is `some e` when the embedding or the
backend search call raises at request time. -/
structure VectorDBState where
  hasClient : Bool
  hasModel : Bool
  points : List ScoredPoint
  searchFault : Option String
deriving DecidableEq

/-- Result of a successful `VectorDBService.__init__`: the fields assigned
in the `try` block (line 58 assigns the fixed collection name). -/
structure VectorDBFields where
  collection_name : String
deriving DecidableEq

/-- `VectorDBService.__init__` (lines 51-65): constructs the Qdrant client,
then the sentence-transformer model, then stores the collection name
`"s3ev_full_data"`; any exception in the `try` block is re-raised as
`HTTPException(500, "Vector DB Initialization Error: ...")`.  No call
inspects `env.collections`. -/
def VectorDBService.construct (env : InitEnv) : Except String VectorDBFields :=
  match env.clientInitFault with
  | some e => Except.error ("Vector DB Initialization Error: " ++ e)
  | none =>
    match env.modelInitFault with
    | some e => Except.error ("Vector DB Initialization Error: " ++ e)
    | none => Except.ok { collection_name := "s3ev_full_data" }

/-- Modelled from the contract of the external Qdrant backend (an external
collaborator, spec sections 4.2 and 6): `client.search(collection, vector,
limit)` returns the matches ordered by descending score and truncated to
`limit`.  Insertion sort is stable, matching "ties broken by index-assigned
order". -/
def clientSearch (points : List ScoredPoint) (limit : Nat) : List ScoredPoint :=
  (List.insertionSort (fun a b => b.score ≤ a.score) points).take limit

/-- `VectorDBService.search` (lines 67-91): returns `[]` when the client or
model is absent; otherwise encodes the query and calls the backend inside a
`try` block, mapping each scored result to a `DocumentResponse`; any
exception is re-raised as `HTTPException(500, "Search Error: ...")`. -/
def VectorDBService.search (st : VectorDBState) (_query : String) (limit : Nat) :
    Except String (List DocumentResponse) :=
  if !st.hasClient || !st.hasModel then Except.ok []
  else
    match st.searchFault with
    | some e => Except.error ("Search Error: " ++ e)
    | none =>
      Except.ok ((clientSearch st.points limit).map (fun r =>
        { content := r.payload.text.getD ""
          confidence := r.score
          metadata := r.payload.metadata.getD [] }))

/-! ### EVChargingExpertSystem (`src/app.py` lines 93-177) -/

/-- The generative model (`self.model.arun`, an external collaborator) is a
function from the prompt to either the completion content or a failure. -/
def GenModel : Type := String → Except String String

/-- Greeting keyword list (line 117). -/
def greetings : List String := ["hi", "hello", "hey"]

/-- Canned greeting response (line 118). -/
def greetingMessage : String :=
  "Hello! I\x27m EVCharge Assistant. How can I help with EV charging today?"

/-- Technical keyword list (lines 128-132). -/
def technical_keywords : List String :=
  ["charging station", "connector", "kw", "charging speed",
   "installation", "ccs", "chademo", "tesla", "ocpp", "power output",
   "load balancing", "dynamic pricing", "roaming"]

/-- `EVChargingExpertSystem.is_technical_query` (lines 127-133). -/
def is_technical_query (query : String) : Bool :=
  technical_keywords.any (fun kw => strOccursIn kw query)

/-- Fixed opening segment of the prompt f-string (lines 156-157). -/
def promptPreamble : String :=
  "\n        You are an expert EV charging solutions assistant. \n        "

/-- Fixed segment of the prompt f-string before the query (line 159). -/
def promptQueryLabel : String := "\n        Current query: "

/-- Fixed requirements segment of the prompt f-string (lines 160-169). -/
def promptRequirements : String :=
  "\n        \n        Response requirements:\n        - Be technically accurate but understandable\n        - Include specifications when available\n        - Mention compatibility considerations\n        - Add safety recommendations where applicable\n        - Conclude with support contact if technical\n        \n        Support contacts:\n        Email: "

/-- Fixed phone-label segment of the prompt f-string (line 170). -/
def promptPhoneLabel : String := "\n        Phone: "

/-- Trailing segment of the prompt f-string (line 171). -/
def promptTail : String := "\n        "

/-- `EVChargingExpertSystem.generate_prompt` (lines 155-172): the f-string
template.  Python's `if context` is true exactly when `context` is
non-empty, hence the `context.isEmpty` test with the branches swapped. -/
def generate_prompt (context query : String) : String :=
  promptPreamble
    ++ (if context.isEmpty then "Use general knowledge"
        else "Reference documentation: " ++ context)
    ++ promptQueryLabel ++ query
    ++ promptRequirements ++ SUPPORT_EMAIL
    ++ promptPhoneLabel ++ SUPPORT_PHONE
    ++ promptTail

/-- `EVChargingExpertSystem.get_general_response` (lines 174-177): canned
fallback f-string built without any model call. -/
def get_general_response (query : String) : String :=
  "I\x27m an EV charging expert. While I don\x27t have specific documentation on this, here\x27s what I know:\n        "
    ++ pyCapitalize query
    ++ " in the context of EV charging typically involves... \n        For detailed technical support, contact "
    ++ SUPPORT_EMAIL ++ " or " ++ SUPPORT_PHONE ++ "."

/-- `EVChargingExpertSystem.get_model_response` (lines 151-153): builds the
prompt and awaits the generative model; a model failure propagates. -/
def get_model_response (gen : GenModel) (context query : String) :
    Except String String :=
  gen (generate_prompt context query)

/-- `EVChargingExpertSystem.process_technical_query` (lines 135-143). -/
def process_technical_query (st : VectorDBState) (gen : GenModel)
    (query : String) : Except String (String × List DocumentResponse) := do
  let docs ← VectorDBService.search st query 5
  if docs.isEmpty then
    pure (get_general_response query, [])
  else
    let context := String.intercalate "\n" (docs.map (fun d => d.content))
    let response ← get_model_response gen context query
    pure (response, docs)

/-- `EVChargingExpertSystem.process_general_query` (lines 145-149). -/
def process_general_query (st : VectorDBState) (gen : GenModel)
    (query : String) : Except String (String × List DocumentResponse) := do
  let docs ← VectorDBService.search st query 5
  let context :=
    if docs.isEmpty then ""
    else String.intercalate "\n" (docs.map (fun d => d.content))
  let response ← get_model_response gen context query
  pure (response, docs)

/-- `EVChargingExpertSystem.process_query` (lines 113-125): lower-case the
query, answer greetings with the canned message and no documents, else
route on the technical keyword test. -/
def process_query (st : VectorDBState) (gen : GenModel) (query : String) :
    Except String (String × List DocumentResponse) :=
  let query_lower := pyLower query
  if greetings.any (fun g => strOccursIn g query_lower) then
    Except.ok (greetingMessage, [])
  else if is_technical_query query_lower then
    process_technical_query st gen query
  else
    process_general_query st gen query

/-! ### Streaming layer (`src/app.py` lines 205-240) -/

/-- One server-sent event: the dict passed to `create_sse_message` is either
`{"token": ...}` or `{"error": ...}`. -/
inductive SSEEvent where
  | token (text : String)
  | error (message : String)
deriving DecidableEq

/-- The text carried by an event. -/
def chunkText : SSEEvent → String
  | SSEEvent.token t => t
  | SSEEvent.error m => m

/-- `stream_response` (lines 208-213): split the completion on whitespace
and yield one token event per word, the word followed by a single space.
The `asyncio.sleep(0.05)` pacing between events has no bearing on the
emitted sequence and is not modelled. -/
def stream_response (response : String) : List SSEEvent :=
  (pySplit response).map (fun word => SSEEvent.token (word ++ " "))

/-- `stream_chat` (lines 219-240): run the pipeline inside a `try`; on
success stream the response text, on any exception emit the single error
event built at lines 234-236. -/
def stream_chat (st : VectorDBState) (gen : GenModel) (question : String) :
    List SSEEvent :=
  match process_query st gen question with
  | Except.ok (response, _docs) => stream_response response
  | Except.error e => [SSEEvent.error ("Error processing query: " ++ e)]


/-! ### Helper lemmas -/

lemma dataAppend (s t : String) : (s ++ t).data = s.data ++ t.data :=
  String.data_append s t

lemma leadsWith_self_append (n b : List Char) : leadsWith n (n ++ b) = true := by
  induction n with
  | nil => rfl
  | cons c cs ih => simp [leadsWith, ih]

lemma occursIn_of_leadsWith {n h : List Char} (hl : leadsWith n h = true) :
    occursIn n h = true := by
  cases h with
  | nil =>
    cases n with
    | nil => rfl
    | cons c cs => simp [leadsWith] at hl
  | cons c cs => simp [occursIn, hl]

lemma occursIn_append_left (a : List Char) {n h : List Char}
    (ho : occursIn n h = true) : occursIn n (a ++ h) = true := by
  induction a with
  | nil => simpa using ho
  | cons c cs ih => simp [occursIn, ih]

lemma occursIn_self_append (n b : List Char) : occursIn n (n ++ b) = true :=
  occursIn_of_leadsWith (leadsWith_self_append n b)

lemma process_query_greeting_hit {q : String}
    (h : greetings.any (fun g => strOccursIn g (pyLower q)) = true)
    (st : VectorDBState) (gen : GenModel) :
    process_query st gen q = Except.ok (greetingMessage, []) := by
  simp [process_query, h]

instance : IsTotal ScoredPoint (fun a b => b.score ≤ a.score) :=
  ⟨fun a b => le_total b.score a.score⟩

instance : IsTrans ScoredPoint (fun a b => b.score ≤ a.score) :=
  ⟨fun _ _ _ h1 h2 => le_trans h2 h1⟩

lemma clientSearch_sorted (pts : List ScoredPoint) (limit : Nat) :
    List.Pairwise (fun a b => b.score ≤ a.score) (clientSearch pts limit) := by
  have hs : List.Sorted (fun a b : ScoredPoint => b.score ≤ a.score)
      (List.insertionSort (fun a b => b.score ≤ a.score) pts) :=
    List.sorted_insertionSort _ pts
  exact hs.sublist (List.take_sublist limit _)

lemma clientSearch_length (pts : List ScoredPoint) (limit : Nat) :
    (clientSearch pts limit).length ≤ limit := by
  simp [clientSearch, List.length_take]

lemma clientSearch_mem {pts : List ScoredPoint} {limit : Nat} {r : ScoredPoint}
    (h : r ∈ clientSearch pts limit) : r ∈ pts := by
  have h1 : r ∈ List.insertionSort (fun a b => b.score ≤ a.score) pts :=
    (List.take_sublist limit _).mem h
  exact (List.perm_insertionSort _ pts).mem_iff.mp h1

/-! ### Claim C1 -/

/-- Claim C1 counterexample: with a live client and model, a backend search
failure at request time (a timeout) makes `VectorDBService.search` raise
rather than return the empty result list the claim promises. -/
theorem search_failure_not_empty_list :
    VectorDBService.search ⟨true, true, [], some "timeout"⟩ "any query" 5 ≠
      Except.ok [] := by decide

/-- Claim C1 (amended): a request-time search failure is re-raised as an
error (`HTTPException` with detail `Search Error: ...`) that propagates out
of `search`; the pipeline endpoint `stream_chat` then catches it and
answers with a single terminal error event instead of a degraded
empty-context response. -/
theorem search_failure_propagates (pts : List ScoredPoint) (q : String)
    (limit : Nat) (e : String) (gen : GenModel) :
    VectorDBService.search ⟨true, true, pts, some e⟩ q limit =
      Except.error ("Search Error: " ++ e) ∧
    stream_chat ⟨true, true, pts, some e⟩ gen "status update" =
      [SSEEvent.error ("Error processing query: " ++ ("Search Error: " ++ e))] := by
  have hg : greetings.any
      (fun g => strOccursIn g (pyLower "status update")) = false := by decide
  have ht : is_technical_query (pyLower "status update") = false := by decide
  constructor
  · simp [VectorDBService.search]
  · simp [stream_chat, process_query, hg, ht, process_general_query,
      VectorDBService.search, get_model_response, Bind.bind, Except.bind]

/-! ### Claim C2 -/

/-- Claim C2 counterexample: construction succeeds against an index whose
collection list does not contain the configured collection
`s3ev_full_data`; no startup failure is raised. -/
theorem construct_ignores_missing_collection :
    VectorDBService.construct ⟨none, none, []⟩ =
      Except.ok ⟨"s3ev_full_data"⟩ ∧
    "s3ev_full_data" ∉ ([] : List String) := by decide

/-- Claim C2 (amended): construction fails fast exactly when building the
index client or loading the embedding model fails; it never consults the
set of collections in the backing index, so a missing target collection is
not detected at construction time. -/
theorem construct_checks_only_client_and_model (env : InitEnv) :
    ((VectorDBService.construct env).isOk = true ↔
      env.clientInitFault = none ∧ env.modelInitFault = none) ∧
    (∀ cols cols2 : List String,
      VectorDBService.construct ⟨env.clientInitFault, env.modelInitFault, cols⟩ =
      VectorDBService.construct ⟨env.clientInitFault, env.modelInitFault, cols2⟩) := by
  constructor
  · cases hc : env.clientInitFault <;> cases hm : env.modelInitFault <;>
      simp [VectorDBService.construct, hc, hm, Except.isOk, Except.toBool]
  · intro cols cols2
    rfl

/-! ### Claim C3 -/

/-- Claim C3 counterexample: on the completion `"a b c d e f g"` the
streamer does not emit the two five-word chunks the claim describes. -/
theorem stream_response_not_five_word_chunks :
    stream_response "a b c d e f g" ≠
      [SSEEvent.token "a b c d e ", SSEEvent.token "f g "] := by decide

/-- Claim C3 (amended): the streamer splits the completion on whitespace
and emits one chunk per word, each chunk being the word followed by one
space: on `"a b c d e f g"` it emits the seven one-word chunks in order,
and the concatenation of all emitted chunk texts, stripped, equals the
original completion text. -/
theorem stream_response_word_chunks :
    stream_response "a b c d e f g" =
      [SSEEvent.token "a ", SSEEvent.token "b ", SSEEvent.token "c ",
       SSEEvent.token "d ", SSEEvent.token "e ", SSEEvent.token "f ",
       SSEEvent.token "g "] ∧
    pyStrip (String.join ((stream_response "a b c d e f g").map chunkText)) =
      "a b c d e f g" := by decide

/-! ### Claim C4 -/

/-- Claim C4 counterexample: with empty retrieval, the general path
propagates a generative-model failure while the technical path succeeds
with the canned `get_general_response` text — so the technical path made no
model call and no model-generated response reaches the caller. -/
theorem technical_path_skips_model_on_empty :
    process_technical_query ⟨true, true, [], none⟩
        (fun _ => Except.error "MODELDOWN") "status update" =
      Except.ok (get_general_response "status update", []) ∧
    process_general_query ⟨true, true, [], none⟩
        (fun _ => Except.error "MODELDOWN") "status update" =
      Except.error "MODELDOWN" := by decide

/-- Claim C4 (amended): when retrieval returns a non-empty document list
the two non-greeting paths run the same algorithm and agree exactly; but on
an empty retrieval result they differ in algorithm, not merely in wording:
the general path still invokes the generative model on the
general-knowledge prompt, while the technical path returns the canned
fallback text without any model call. -/
theorem non_greeting_paths_compared (st : VectorDBState) (gen : GenModel)
    (q : String) :
    (∀ docs, VectorDBService.search st q 5 = Except.ok docs → docs ≠ [] →
      process_technical_query st gen q = process_general_query st gen q) ∧
    (VectorDBService.search st q 5 = Except.ok [] →
      process_technical_query st gen q =
        Except.ok (get_general_response q, []) ∧
      process_general_query st gen q =
        Except.map (fun r => (r, [])) (get_model_response gen "" q)) := by
  constructor
  · intro docs hs hne
    cases docs with
    | nil => exact absurd rfl hne
    | cons d ds =>
      simp [process_technical_query, process_general_query, hs, Bind.bind,
        Except.bind, Functor.map, Except.map]
  · intro hs
    constructor
    · simp [process_technical_query, hs, Bind.bind, Except.bind, Pure.pure,
        Except.pure]
    · cases hgen : get_model_response gen "" q with
      | ok r =>
        simp [process_general_query, hs, Bind.bind, Except.bind, hgen,
          Functor.map, Except.map, Pure.pure, Except.pure]
      | error e =>
        simp [process_general_query, hs, Bind.bind, Except.bind, hgen,
          Functor.map, Except.map]

/-- Witness for C4: a concrete one-document state on which the two paths
agree, and a concrete empty state on which the technical path returns the
canned fallback. -/
theorem non_greeting_paths_compared_witness :
    process_technical_query ⟨true, true, [⟨1, ⟨some "doc text", some []⟩⟩], none⟩
        (fun p => Except.ok p) "status update" =
      process_general_query ⟨true, true, [⟨1, ⟨some "doc text", some []⟩⟩], none⟩
        (fun p => Except.ok p) "status update" ∧
    process_technical_query ⟨true, true, [], none⟩
        (fun p => Except.ok p) "status update" =
      Except.ok (get_general_response "status update", []) :=
  ⟨(non_greeting_paths_compared _ _ _).1 [⟨"doc text", 1, []⟩] (by decide)
      (by decide),
   ((non_greeting_paths_compared _ _ _).2 (by decide)).1⟩

/-! ### Claim C5 -/

/-- Claim C5 counterexample: `search` takes no score threshold and does not
filter: for the score threshold 1 it still returns a document whose
confidence is 0, below the threshold. -/
theorem search_no_threshold_filter :
    VectorDBService.search ⟨true, true, [⟨0, ⟨some "lowdoc", some []⟩⟩], none⟩
        "q" 5 =
      Except.ok [⟨"lowdoc", 0, []⟩] ∧
    ¬ ((1 : Rat) ≤ 0) := by decide

/-- Claim C5 (amended): for every backend candidate set, query and
requested limit, a successful `search` returns a list of length at most the
limit, ordered by non-increasing confidence; no score-threshold filtering
is applied because the code has no threshold parameter. -/
theorem search_limit_and_order (pts : List ScoredPoint) (q : String)
    (limit : Nat) :
    ∃ l, VectorDBService.search ⟨true, true, pts, none⟩ q limit =
        Except.ok l ∧
      l.length ≤ limit ∧
      List.Pairwise (fun a b => b.confidence ≤ a.confidence) l := by
  refine ⟨(clientSearch pts limit).map (fun r =>
    { content := r.payload.text.getD ""
      confidence := r.score
      metadata := r.payload.metadata.getD [] }), ?_, ?_, ?_⟩
  · simp [VectorDBService.search]
  · simpa using clientSearch_length pts limit
  · exact List.pairwise_map.mpr (clientSearch_sorted pts limit)

/-! ### Claim C6 -/

/-- Claim C6: a query containing a greeting keyword is classified as a
greeting and short-circuits the pipeline: the canned greeting message with
an empty document list is returned for every vector-DB state and every
generative model, in particular for states whose search or embedding call
would fail and models that would fail — so no embedding, search or model
call is made; this holds whether or not the technical keyword test also
matches, so the greeting check precedes the technical check. -/
theorem greeting_short_circuits (q : String)
    (h : greetings.any (fun g => strOccursIn g (pyLower q)) = true) :
    ∀ (st : VectorDBState) (gen : GenModel),
      process_query st gen q = Except.ok (greetingMessage, []) :=
  fun st gen => process_query_greeting_hit h st gen

/-- Witness for C6: the query `"hi, how do I install a tesla charging
station?"` contains a greeting keyword (and technical keywords), and the
pipeline returns the canned greeting with no documents even in a state
whose search would fail with every generative model failing. -/
theorem greeting_short_circuits_witness :
    greetings.any (fun g => strOccursIn g
      (pyLower "hi, how do I install a tesla charging station?")) = true ∧
    process_query ⟨true, true, [], some "backend down"⟩
        (fun _ => Except.error "model down")
        "hi, how do I install a tesla charging station?" =
      Except.ok (greetingMessage, []) :=
  ⟨by decide,
   greeting_short_circuits _ (by decide) ⟨true, true, [], some "backend down"⟩
     (fun _ => Except.error "model down")⟩

/-! ### Claim C7 -/

/-- Claim C7 counterexample: confidence is the backend score passed through
unvalidated — a backend score of 2 yields a retrieval result whose
confidence 2 lies outside [0,1]. -/
theorem confidence_not_clamped :
    VectorDBService.search ⟨true, true, [⟨2, ⟨some "d", some []⟩⟩], none⟩
        "q" 5 =
      Except.ok [⟨"d", 2, []⟩] ∧
    ¬ ((2 : Rat) ≤ 1) := by decide

/-- Claim C7 (amended): confidences are the backend scores passed through
unchanged, so every confidence of a successful search result lies in [0,1]
exactly when the backend candidate scores do. -/
theorem confidence_in_unit_interval (pts : List ScoredPoint) (q : String)
    (limit : Nat) (hp : ∀ p ∈ pts, 0 ≤ p.score ∧ p.score ≤ 1)
    (l : List DocumentResponse)
    (hs : VectorDBService.search ⟨true, true, pts, none⟩ q limit =
      Except.ok l) :
    ∀ d ∈ l, 0 ≤ d.confidence ∧ d.confidence ≤ 1 := by
  intro d hd
  have hl : l = (clientSearch pts limit).map (fun r =>
      { content := r.payload.text.getD ""
        confidence := r.score
        metadata := r.payload.metadata.getD [] }) := by
    simpa [VectorDBService.search] using hs.symm
  subst hl
  obtain ⟨r, hr, rfl⟩ := List.mem_map.mp hd
  exact hp r (clientSearch_mem hr)

/-- Witness for C7: a concrete two-point backend with scores 1 and 0 inside
[0,1]; the resulting confidences are in [0,1]. -/
theorem confidence_in_unit_interval_witness :
    (∀ p ∈ [(⟨1, ⟨some "a", some []⟩⟩ : ScoredPoint),
            ⟨0, ⟨some "b", some []⟩⟩], 0 ≤ p.score ∧ p.score ≤ 1) ∧
    (∀ d ∈ [(⟨"a", 1, []⟩ : DocumentResponse), ⟨"b", 0, []⟩],
      0 ≤ d.confidence ∧ d.confidence ≤ 1) :=
  ⟨by decide,
   confidence_in_unit_interval
     [⟨1, ⟨some "a", some []⟩⟩, ⟨0, ⟨some "b", some []⟩⟩] "q" 5
     (by decide) _ (by decide)⟩

/-! ### Claim C8 -/

/-- Claim C8: prompt building is a pure function of context and query whose
output embeds the literal query and the fixed support constants; with empty
context the prompt contains the general-knowledge instruction and, at a
sample query, does not contain the reference-documentation clause; with
non-empty context it contains the reference-documentation clause followed
by the context. -/
theorem generate_prompt_spec :
    (∀ q, strOccursIn "Use general knowledge" (generate_prompt "" q) = true) ∧
    (∀ c q, c.isEmpty = false →
      strOccursIn ("Reference documentation: " ++ c)
        (generate_prompt c q) = true) ∧
    (∀ c q, strOccursIn q (generate_prompt c q) = true ∧
      strOccursIn SUPPORT_EMAIL (generate_prompt c q) = true ∧
      strOccursIn SUPPORT_PHONE (generate_prompt c q) = true) ∧
    strOccursIn "Reference documentation"
      (generate_prompt "" "sample question") = false := by
  refine ⟨?_, ?_, ?_, by decide⟩
  · intro q
    unfold strOccursIn
    simp only [generate_prompt, dataAppend, List.append_assoc,
      String.isEmpty_iff, if_pos rfl]
    exact occursIn_append_left _ (occursIn_self_append _ _)
  · intro c q hc
    unfold strOccursIn
    have hne : ¬ c.isEmpty = true := by simp [hc]
    simp only [generate_prompt, if_neg hne, dataAppend, List.append_assoc]
    have := occursIn_append_left promptPreamble.data
      (occursIn_self_append ("Reference documentation: ".data ++ c.data)
        (promptQueryLabel.data ++ (q.data ++ (promptRequirements.data ++
          (SUPPORT_EMAIL.data ++ (promptPhoneLabel.data ++
            (SUPPORT_PHONE.data ++ promptTail.data)))))))
    simpa [List.append_assoc] using this
  · intro c q
    unfold strOccursIn
    refine ⟨?_, ?_, ?_⟩ <;>
      simp only [generate_prompt, dataAppend, List.append_assoc]
    · exact occursIn_append_left _ (occursIn_append_left _
        (occursIn_append_left _ (occursIn_self_append _ _)))
    · exact occursIn_append_left _ (occursIn_append_left _
        (occursIn_append_left _ (occursIn_append_left _
          (occursIn_append_left _ (occursIn_self_append _ _)))))
    · exact occursIn_append_left _ (occursIn_append_left _
        (occursIn_append_left _ (occursIn_append_left _
          (occursIn_append_left _ (occursIn_append_left _
            (occursIn_append_left _ (occursIn_self_append _ _)))))))


/-! ### Claim C9 -/

/-- Claim C9: when query processing fails — in particular when the
generative-model call fails, since `get_model_response` propagates any model
failure — the stream returned to the caller consists of exactly one
terminal error event and contains no token events; the failure is not
converted into a degraded success. -/
theorem model_failure_single_error_event (st : VectorDBState) (gen : GenModel)
    (q e : String) (h : process_query st gen q = Except.error e) :
    stream_chat st gen q =
      [SSEEvent.error ("Error processing query: " ++ e)] ∧
    ∀ t, SSEEvent.token t ∉ stream_chat st gen q := by
  have hsc : stream_chat st gen q =
      [SSEEvent.error ("Error processing query: " ++ e)] := by
    simp [stream_chat, h]
  exact ⟨hsc, fun t => by simp [hsc]⟩

/-- Witness for C9: with a healthy index and a generative model that fails
with `"quota"`, processing the non-greeting query fails and the stream is
the single error event. -/
theorem model_failure_single_error_event_witness :
    process_query ⟨true, true, [], none⟩ (fun _ => Except.error "quota")
        "status update" = Except.error "quota" ∧
    stream_chat ⟨true, true, [], none⟩ (fun _ => Except.error "quota")
        "status update" =
      [SSEEvent.error ("Error processing query: " ++ "quota")] :=
  ⟨by decide,
   (model_failure_single_error_event ⟨true, true, [], none⟩
      (fun _ => Except.error "quota") "status update" "quota" (by decide)).1⟩

/-! ### Claim C10 -/

/-- Claim C10: the greeting test is a substring test on the lowercased
query against the literals `"hi"`, `"hello"` and `"hey"`: any query whose
lowercase form contains any of the three anywhere — including inside a
longer word — is answered with the fixed greeting message and an empty
document list, with no retrieval for any state or model; in particular
`"Which connector is best?"` triggers it (via the `"hi"` inside
`"which"`) although it also contains a technical keyword. -/
theorem greeting_substring_match :
    (∀ q, (strOccursIn "hi" (pyLower q) = true ∨
           strOccursIn "hello" (pyLower q) = true ∨
           strOccursIn "hey" (pyLower q) = true) →
      ∀ (st : VectorDBState) (gen : GenModel),
        process_query st gen q = Except.ok (greetingMessage, [])) ∧
    (∀ (st : VectorDBState) (gen : GenModel),
      process_query st gen "Which connector is best?" =
        Except.ok (greetingMessage, []) ∧
      is_technical_query (pyLower "Which connector is best?") = true) := by
  constructor
  · intro q h st gen
    apply process_query_greeting_hit _ st gen
    rcases h with h | h | h <;> simp [greetings, h]
  · intro st gen
    exact ⟨process_query_greeting_hit (by decide) st gen, by decide⟩

/-- Witness for C10: `"heyday schedule"` contains `"hey"` inside a longer
word (and neither `"hi"` nor `"hello"`) and is answered with the greeting
even in a state whose search would fail with a failing model. -/
theorem greeting_substring_match_witness :
    strOccursIn "hey" (pyLower "heyday schedule") = true ∧
    process_query ⟨true, true, [], some "down"⟩
        (fun _ => Except.error "down") "heyday schedule" =
      Except.ok (greetingMessage, []) :=
  ⟨by decide,
   greeting_substring_match.1 "heyday schedule" (Or.inr (Or.inr (by decide)))
     ⟨true, true, [], some "down"⟩ (fun _ => Except.error "down")⟩

/-- Witness for C8: with the concrete non-empty context `"the docs"` the
prompt contains the reference-documentation clause followed by that
context. -/
theorem generate_prompt_spec_witness :
    strOccursIn ("Reference documentation: " ++ "the docs")
      (generate_prompt "the docs" "what is CCS?") = true :=
  generate_prompt_spec.2.1 "the docs" "what is CCS?" (by decide)

end S3EV
